import Mathlib

/-!
Verification of the TheLocalShield 2.5 backend (FastAPI + SQLite location and
emergency-alert service) against its natural-language specification.

The Python sources are shallowly embedded: SQLite rows are lists of records of
dynamically typed values, every fallible operation is made total the way the
Python code makes it total (try/except becomes Except with an explicit catch),
and points at which the real system can raise for environmental reasons
(a failing database handle, a failing transcription, a failing outbound push
call) are modelled by explicit fault flags supplied as arguments.
-/

/-- A dynamically typed SQLite cell, as returned by the sqlite3 driver:
NULL, INTEGER, REAL or TEXT.  REAL is modelled by a rational number. -/
inductive Value where
  | vNull : Value
  | vInt (n : Int) : Value
  | vReal (q : Rat) : Value
  | vText (s : String) : Value
deriving DecidableEq, Repr

open Value

/-- A row of the emergencies table as selected by
SELECT id, user_id, latitude, longitude, created_at in database.py.
Every selected row carries all five columns; a column can still hold NULL. -/
structure RawRow where
  id : Value
  user_id : Value
  latitude : Value
  longitude : Value
  created_at : Value
deriving DecidableEq, Repr

/-- Python str.replace of a single character with the empty string removes
every occurrence: the embedding of since_timestamp.replace with the Z
argument in database.py. -/
def stripChar (c : Char) (l : List Char) : List Char :=
  l.filter (fun d => d ≠ c)

/-- Python str.replace of one character by another rewrites every
occurrence: the embedding of the T-to-space replacement in database.py. -/
def swapChar (c r : Char) (l : List Char) : List Char :=
  l.map (fun d => if d = c then r else d)

/-- Python split on a dot and keeping the first part, applied only when a dot
is present: the millisecond-stripping step of database.py. -/
def dropFrac (l : List Char) : List Char :=
  if l.contains '.' then l.takeWhile (fun d => d ≠ '.') else l

/-- The cursor normalization of get_recent_emergencies in database.py:
remove every Z, turn every T into a space, and cut at the first dot. -/
def normTs (s : String) : String :=
  String.mk (dropFrac (swapChar 'T' ' ' (stripChar 'Z' s.data)))

/-- Strict bytewise (codepoint) order on character lists, the comparison
SQLite applies to two TEXT operands.  UTF-8 byte order and codepoint order
agree. -/
def strLtB : List Char → List Char → Bool
  | [], [] => false
  | [], _ :: _ => true
  | _ :: _, [] => false
  | a :: as, b :: bs => if a < b then true else if b < a then false else strLtB as bs

/-- Decimal digit run to a natural number. -/
def digitsVal (l : List Char) : Nat :=
  l.foldl (fun a c => a * 10 + (c.toNat - 48)) 0

/-- SQLite application of NUMERIC affinity to a bound TEXT parameter: when
the whole text (up to leading and trailing spaces) is a well-formed
integer or real literal, with optional sign, optional fractional part and
optional exponent, it is coerced to its numeric value; any other text
keeps the TEXT storage class and the conversion answers none. -/
def sqliteNum? (l : List Char) : Option Rat :=
  let l1 := l.dropWhile (fun c => c = ' ')
  let p1 : Bool × List Char :=
    match l1 with
    | '-' :: r => (true, r)
    | '+' :: r => (false, r)
    | _ => (false, l1)
  let ip := p1.2.takeWhile Char.isDigit
  let l3 := p1.2.dropWhile Char.isDigit
  let p2 : List Char × List Char :=
    match l3 with
    | '.' :: r => (r.takeWhile Char.isDigit, r.dropWhile Char.isDigit)
    | _ => ([], l3)
  if ip.isEmpty && p2.1.isEmpty then none
  else
    let mant : Rat := ((digitsVal ip : Int) : Rat) +
      ((digitsVal p2.1 : Int) : Rat) / ((((10 : Int) ^ p2.1.length) : Int) : Rat)
    let p3 : Option (Bool × Nat × List Char) :=
      match p2.2 with
      | 'e' :: r | 'E' :: r =>
        let p4 : Bool × List Char :=
          match r with
          | '-' :: rr => (true, rr)
          | '+' :: rr => (false, rr)
          | _ => (false, r)
        let ed := p4.2.takeWhile Char.isDigit
        if ed.isEmpty then none
        else some (p4.1, digitsVal ed, p4.2.dropWhile Char.isDigit)
      | _ => some (false, 0, p2.2)
    match p3 with
    | none => none
    | some (eneg, eAbs, l5) =>
      if (l5.dropWhile (fun c => c = ' ')).isEmpty then
        let scaled : Rat :=
          if eneg then mant / ((((10 : Int) ^ eAbs) : Int) : Rat)
          else mant * ((((10 : Int) ^ eAbs) : Int) : Rat)
        some (if p1.1 then -scaled else scaled)
      else none

/-- The SQL predicate created_at > ? with a text parameter.  The
created_at column is declared TIMESTAMP, which carries NUMERIC affinity,
so SQLite first applies numeric affinity to the bound cursor: a cursor
that is a well-formed numeric literal is coerced to its number, and the
comparison then follows the storage class order NULL < numbers < TEXT
(numbers compared numerically, so every TEXT cell exceeds a coerced
cursor); a cursor that stays TEXT is compared bytewise with TEXT cells,
while NULL and numeric cells sort below it. -/
def textGt (v : Value) (param : List Char) : Bool :=
  match sqliteNum? param with
  | some q =>
    match v with
    | vNull => false
    | vInt n => decide (q < (n : Rat))
    | vReal r => decide (q < r)
    | vText _ => true
  | none =>
    match v with
    | vText s => strLtB param s.data
    | _ => false

/-- The SQL predicate user_id != ? with an INTEGER parameter.  A NULL cell
makes the predicate NULL, which WHERE drops; a TEXT cell sorts above every
number and is therefore unequal. -/
def sqlNeInt (v : Value) (x : Int) : Bool :=
  match v with
  | vNull => false
  | vInt n => n ≠ x
  | vReal q => q ≠ (x : Rat)
  | vText _ => true

/-- Ordering key for ORDER BY created_at DESC: value b sorts before value a
descending when a is not above b in the SQLite value order
(NULL < numbers < text, numbers numerically, text bytewise). -/
def sqliteLtV (a b : Value) : Bool :=
  match a, b with
  | vNull, vNull => false
  | vNull, _ => true
  | vInt _, vNull => false
  | vInt n, vInt m => n < m
  | vInt n, vReal q => (n : Rat) < q
  | vInt _, vText _ => true
  | vReal _, vNull => false
  | vReal q, vInt m => q < (m : Rat)
  | vReal q, vReal r => q < r
  | vReal _, vText _ => true
  | vText s, vText t => strLtB s.data t.data
  | vText _, _ => false

/-- Descending order on rows for ORDER BY created_at DESC: row a comes
before row b when b.created_at is not above a.created_at. -/
def rowDescR (a b : RawRow) : Prop :=
  sqliteLtV a.created_at b.created_at = false

instance : DecidableRel rowDescR := fun a b => by
  unfold rowDescR; infer_instance

/-- Truthiness of the created_at cell, as Python sees the fetched value:
None, 0, 0.0 and the empty string are falsy. -/
def truthyV (v : Value) : Bool :=
  match v with
  | vNull => false
  | vInt n => n ≠ 0
  | vReal q => q ≠ 0
  | vText s => s ≠ ""

/-- The per-row created_at fix-up of get_recent_emergencies in database.py:
a truthy created_at that is not a string gets .isoformat() called on it,
which raises AttributeError on the int or float the sqlite3 driver would
actually hand back; a string or a falsy value passes through unchanged.
The subsequent all-keys-present check always succeeds because the SELECT
names all five columns. -/
def fixRow (r : RawRow) : Except Unit RawRow :=
  match r.created_at with
  | vText _ => .ok r
  | vNull => .ok r
  | vInt n => if n = 0 then .ok r else .error ()
  | vReal q => if q = 0 then .ok r else .error ()

/-- The row-conversion loop of get_recent_emergencies: each row is fixed up
in order; an exception from any row aborts the whole loop (it is not caught
per row there, only by the outer handler of the function). -/
def processRows : List RawRow → Except Unit (List RawRow)
  | [] => .ok []
  | r :: rs =>
    match fixRow r with
    | .error e => .error e
    | .ok r' =>
      match processRows rs with
      | .error e => .error e
      | .ok rs' => .ok (r' :: rs')

/-- The four-way branch of get_recent_emergencies in database.py, after the
cursor has been normalized: both filters, only the cursor filter, only the
user filter (note: no LIMIT on this branch), or neither filter with
LIMIT 50.  Sorting embeds ORDER BY created_at DESC. -/
def selectEmergencies (rows : List RawRow) (sinceN : Option String) (excl : Option Int) :
    List RawRow :=
  match sinceN, excl with
  | some s, some u =>
    if s = "" then (rows.filter (fun r => sqlNeInt r.user_id u)).insertionSort rowDescR
    else
      (rows.filter (fun r => textGt r.created_at s.data && sqlNeInt r.user_id u)).insertionSort
        rowDescR
  | some s, none =>
    if s = "" then (rows.insertionSort rowDescR).take 50
    else (rows.filter (fun r => textGt r.created_at s.data)).insertionSort rowDescR
  | none, some u => (rows.filter (fun r => sqlNeInt r.user_id u)).insertionSort rowDescR
  | none, none => (rows.insertionSort rowDescR).take 50

/-- The body of get_recent_emergencies in database.py inside its outer try.
The fault flag stands for any environmental exception out of the database
handle (connection, cursor or execute failing).  A truthy cursor is first
normalized; the branch test then re-checks truthiness of the normalized
value, so a cursor whose normalization is empty silently loses the cursor
filter.  The fetched rows then run through the created_at fix-up loop,
whose exception propagates to the caller of the body. -/
def greBody (fault : Bool) (rows : List RawRow) (since : Option String)
    (excl : Option Int) : Except Unit (List RawRow) :=
  if fault then .error () else
  let sinceN : Option String := match since with
    | some s => if s = "" then some s else some (normTs s)
    | none => none
  processRows (selectEmergencies rows sinceN excl)

/-- get_recent_emergencies of database.py: the body runs under a catch-all
except-handler that turns any exception into the empty list, so the caller
never observes a failure. -/
def get_recent_emergencies (fault : Bool) (rows : List RawRow) (since : Option String)
    (excl : Option Int) : List RawRow :=
  match greBody fault rows since excl with
  | .ok l => l
  | .error _ => []

/-- Python int() applied to a fetched cell: an int is itself, a float is
truncated toward zero, a string is parsed as a decimal integer, and None
raises TypeError. -/
def pyInt (v : Value) : Except Unit Int :=
  match v with
  | vInt n => .ok n
  | vReal q => .ok (q.num.tdiv (q.den : Int))
  | vText s => match s.toInt? with
    | some n => .ok n
    | none => .error ()
  | vNull => .error ()

/-- Python float() applied to a string: optional sign, integer part,
optional fractional part.  Exponent forms are not modelled; no row produced
by this service stores them. -/
def parseRat? (l : List Char) : Option Rat :=
  let (neg, l1) : Bool × List Char := match l with
    | '-' :: rest => (true, rest)
    | '+' :: rest => (false, rest)
    | _ => (false, l)
  let ip := l1.takeWhile Char.isDigit
  let rest := l1.drop ip.length
  let body : Option Rat := match rest with
    | [] => if ip.isEmpty then none else some ((digitsVal ip : Int) : Rat)
    | '.' :: fr =>
      if fr.all Char.isDigit && !(ip.isEmpty && fr.isEmpty) then
        some (((digitsVal ip : Int) : Rat) + ((digitsVal fr : Int) : Rat) / ((10 ^ fr.length : Int) : Rat))
      else none
    | _ => none
  body.map (fun q => if neg then -q else q)

/-- Python float() applied to a fetched cell: numbers pass through, strings
are parsed, None raises TypeError. -/
def pyFloat (v : Value) : Except Unit Rat :=
  match v with
  | vInt n => .ok (n : Rat)
  | vReal q => .ok q
  | vText s => match parseRat? s.data with
    | some q => .ok q
    | none => .error ()
  | vNull => .error ()

/-- Python str() applied to a fetched cell; it never raises.  For None it
produces the four-letter text None, exactly as Python prints it. -/
def pyStr (v : Value) : String :=
  match v with
  | vText s => s
  | vInt n => toString n
  | vReal q => toString q
  | vNull => "None"

/-- One validated element of the array served by GET /emergency/recent. -/
structure EmergencyOut where
  id : Int
  user_id : Int
  latitude : Rat
  longitude : Rat
  created_at : String
deriving DecidableEq, Repr

/-- The per-row validation of get_recent_emergencies_endpoint in
emergency_routes.py: coerce the five fields with int, int, float, float and
str inside a per-row try, then keep the row only when both ids are
positive; a coercion failure skips just that row. -/
def validateRow (r : RawRow) : Option EmergencyOut :=
  match pyInt r.id, pyInt r.user_id, pyFloat r.latitude, pyFloat r.longitude with
  | .ok i, .ok u, .ok la, .ok lo =>
    if 0 < i ∧ 0 < u then some ⟨i, u, la, lo, pyStr r.created_at⟩ else none
  | _, _, _, _ => none

/-- A decoded JWT payload: the claim dictionary.  auth.py encodes the
subject under the key sub as a string; the verification outcome of a bearer
header is modelled directly as the payload it decodes to, or none for a
missing, malformed or rejected token. -/
def create_access_token (uid : Int) (expVal : Int) : List (String × Value) :=
  [("sub", vText (toString uid)), ("exp", vInt expVal)]

/-- The exclusion id the endpoint extracts from the verified payload:
emergency_routes.py reads the key user_id from the decoded claim
dictionary.  A numeric text value would be coerced by the INTEGER affinity
of the user_id column when bound into the SQL comparison. -/
def excludeOf (payload : Option (List (String × Value))) : Option Int :=
  match payload with
  | none => none
  | some pl =>
    match pl.lookup "user_id" with
    | some (vInt n) => some n
    | some (vText s) => s.toInt?
    | _ => none

/-- get_recent_emergencies_endpoint of emergency_routes.py: resolve the
caller from the bearer payload (exclusion id), fetch from the database
layer, then validate each returned row, skipping silently any row that
fails; the accumulated list is always returned, even when everything else
failed. -/
def get_recent_emergencies_endpoint (fault : Bool) (rows : List RawRow)
    (payload : Option (List (String × Value))) (since : Option String) : List EmergencyOut :=
  let ems := get_recent_emergencies fault rows since (excludeOf payload)
  ems.foldl (fun acc e =>
    match validateRow e with
    | some v => acc ++ [v]
    | none => acc) []

/-- A row of the users table (database.py schema): id, unique email,
password hash, optional name, optional Expo push token. -/
structure UserRow where
  id : Int
  email : String
  password_hash : String
  name : Option String
  expo_push_token : Option String
deriving DecidableEq, Repr

/-- A row of the locations table: primary key user_id with the last known
coordinates and update instant. -/
structure LocRow where
  user_id : Int
  latitude : Rat
  longitude : Rat
  last_updated : String
deriving DecidableEq, Repr

/-- The whole SQLite store, with the autoincrement counters the driver
keeps for the two tables with generated ids. -/
structure DBState where
  users : List UserRow
  locations : List LocRow
  emergencies : List RawRow
  nextUserId : Int
  nextEmergencyId : Int
deriving DecidableEq, Repr

/-- upsert_location of database.py: INSERT OR REPLACE keyed on user_id,
stamped with the current instant; its own try/except turns any database
fault into a false return value and leaves the store untouched. -/
def upsert_location (fault : Bool) (now : String) (st : DBState) (uid : Int)
    (lat lon : Rat) : DBState × Bool :=
  if fault then (st, false)
  else
    ({ st with locations :=
        (st.locations.filter (fun l => l.user_id ≠ uid)) ++ [⟨uid, lat, lon, now⟩] }, true)

/-- create_emergency of database.py: INSERT a new emergencies row whose id
is the next autoincrement value and whose created_at takes the
CURRENT_TIMESTAMP default; the surrounding try/except turns any database
fault into the sentinel id -1 with the store untouched. -/
def create_emergency (fault : Bool) (now : String) (st : DBState) (uid : Int)
    (lat lon : Rat) : DBState × Int :=
  if fault then (st, -1)
  else
    ({ st with
        emergencies := st.emergencies ++
          [⟨vInt st.nextEmergencyId, vInt uid, vReal lat, vReal lon, vText now⟩],
        nextEmergencyId := st.nextEmergencyId + 1 },
      st.nextEmergencyId)

/-- get_user_push_tokens_except of database.py: tokens of every user other
than the given one whose token is neither NULL nor empty (the SQL filters
NULL and the empty string, the list comprehension re-checks truthiness). -/
def get_user_push_tokens_except (st : DBState) (uid : Int) : List String :=
  (st.users.filter (fun u =>
    u.id ≠ uid && u.expo_push_token ≠ none && u.expo_push_token ≠ some "")).filterMap
    (fun u => u.expo_push_token)

/-- The response dictionary of POST /emergency/notify_nearby. -/
structure NotifyResp where
  status : String
  recipients : Nat
  emergency_id : Int
deriving DecidableEq, Repr

/-- notify_nearby of emergency_routes.py, for an authenticated caller:
upsert the location with the boolean result ignored, insert the emergency
event with its sentinel result passed straight through, fetch the other
push tokens, dispatch to each sequentially counting successes (sendOk gives
the per-recipient outcome of the Expo call), and answer sent with the count
and whatever create_emergency returned. -/
def notify_nearby (faultLoc faultEmerg : Bool) (now : String) (sendOk : String → Bool)
    (st : DBState) (uid : Int) (lat lon : Rat) : DBState × NotifyResp :=
  let st1 := (upsert_location faultLoc now st uid lat lon).1
  let r2 := create_emergency faultEmerg now st1 uid lat lon
  let toks := get_user_push_tokens_except r2.1 uid
  (r2.1, ⟨"sent", (toks.filter sendOk).length, r2.2⟩)

/-- register_push_token of database.py: when a users row with the given id
exists, update its push token, and its name too when a truthy name was
supplied; when no such row exists, log and return false without touching
the store.  Its try/except maps any database fault to false. -/
def register_push_token (fault : Bool) (st : DBState) (uid : Int) (tok : String)
    (name : Option String) : DBState × Bool :=
  if fault then (st, false)
  else if st.users.any (fun u => u.id = uid) then
    ({ st with users := st.users.map (fun u =>
        if u.id = uid then
          { u with expo_push_token := some tok,
                   name := match name with
                     | some n => if n = "" then u.name else some n
                     | none => u.name }
        else u) }, true)
  else (st, false)

/-- create_user of auth_routes.py: INSERT a users row with the next
autoincrement id, defaulting the name to the part of the email before the
at sign; the UNIQUE constraint on email makes a duplicate insert raise
IntegrityError, which the except-branch maps to the sentinel None. -/
def create_user (fault : Bool) (st : DBState) (email : String) (ph : String)
    (name : Option String) : DBState × Option Int :=
  if fault then (st, none)
  else if st.users.any (fun u => u.email = email) then (st, none)
  else
    ({ st with
        users := st.users ++
          [⟨st.nextUserId, email, ph,
            some (match name with
              | some n => if n = "" then String.mk (email.data.takeWhile (fun c => c ≠ '@')) else n
              | none => String.mk (email.data.takeWhile (fun c => c ≠ '@'))),
            none⟩],
        nextUserId := st.nextUserId + 1 },
      some st.nextUserId)

/-- The request body of POST /location/update as declared in models.py:
exactly latitude and longitude.  The user_id field was removed from the
model (its comment says the id now comes from the JWT). -/
structure LocationUpdateRequest where
  latitude : Rat
  longitude : Rat
deriving DecidableEq, Repr

/-- Python attribute access on the validated LocationUpdateRequest object:
only the two declared fields resolve; any other attribute name raises
AttributeError at run time. -/
def LocationUpdateRequest.getattr (req : LocationUpdateRequest) (a : String) : Option Value :=
  if a = "latitude" then some (vReal req.latitude)
  else if a = "longitude" then some (vReal req.longitude)
  else none

/-- The response of a route, or the HTTP error FastAPI turns an uncaught
exception or an HTTPException into. -/
inductive RouteResult (α : Type) where
  | ok (v : α) : RouteResult α
  | httpError (code : Nat) (detail : String) : RouteResult α
deriving DecidableEq, Repr

/-- update_location of location_routes.py: the handler evaluates
request.user_id before anything else, but the model declares no such
field, so the access raises AttributeError, which FastAPI answers with an
internal server error; the upsert and respond continuation is reached only
if the attribute resolves. -/
def update_location (fault : Bool) (now : String) (req : LocationUpdateRequest)
    (st : DBState) : DBState × RouteResult String :=
  match req.getattr "user_id" with
  | none => (st, .httpError 500 "AttributeError: user_id")
  | some v =>
    match pyInt v with
    | .error _ => (st, .httpError 500 "TypeError")
    | .ok uid =>
      let r := upsert_location fault now st uid req.latitude req.longitude
      if r.2 then (r.1, .ok "success")
      else (r.1, .httpError 500 "Failed to update location")

/-- The environment of one POST /transcribe-and-alert request in
integrated_server.py: whether the base64 payload decodes, its decoded
size, the format field of the request, and the outcomes of the first
transcription attempt, the ffmpeg conversion, the retried transcription
and the alert generation (the latter already includes its internal
rate-limit retries). -/
structure PipeInput where
  decodeOk : Bool
  audioLen : Nat
  fmt : String
  firstOk : Bool
  convertOk : Bool
  retryOk : Bool
  alertOk : Bool
deriving DecidableEq, Repr

/-- The temporary-file suffix chosen by the handler: webm stays webm,
anything else is written with a wav suffix. -/
def fileExt (fmt : String) : String :=
  if fmt = "webm" then "webm" else "wav"

/-- The NamedTemporaryFile path for the uploaded audio (the directory part
is irrelevant to the claims and elided): the chosen suffix appended to the
fixed stem. -/
def tempPath (fmt : String) : String :=
  if fileExt fmt = "webm" then "tmp.webm" else "tmp.wav"

/-- temp_file_path.replace of the suffix by .wav, the path of the
converted file.  For a non-webm upload the temp file already ends in .wav,
so the replacement leaves the path unchanged and the two paths collide. -/
def wavPath (fmt : String) : String :=
  if fileExt fmt = "webm" then "tmp.wav" else tempPath fmt

/-- os.unlink: removes the path, raising FileNotFoundError when absent.
The error value carries the file set so an exception handler can keep
cleaning up. -/
def unlinkF (p : String) (fs : List String) : Except (List String) (List String) :=
  if fs.contains p then .ok (fs.filter (fun q => q ≠ p)) else .error fs

/-- Writing a file: the path comes into existence (ffmpeg overwrites with
the -y flag, NamedTemporaryFile creates fresh). -/
def createFile (fs : List String) (p : String) : List String :=
  if fs.contains p then fs else fs ++ [p]

/-- The inner try of transcribe_and_alert, entered with the temp file
already on disk: first transcription attempt, on failure one ffmpeg
conversion plus one retry (only a successful retry unlinks the converted
file), then alert generation and, on full success, the unguarded unlink of
the temp file.  An error result carries the files existing at the raise. -/
def innerFlow (inp : PipeInput) (tp : String) (files : List String) :
    Except (List String) (List String) :=
  let afterTrans : Except (List String) (List String) :=
    if inp.firstOk then .ok files
    else
      let wp := wavPath inp.fmt
      if !inp.convertOk then .error files
      else
        let f1 := createFile files wp
        if inp.retryOk then unlinkF wp f1 else .error f1
  match afterTrans with
  | .error fs => .error fs
  | .ok fs =>
    if inp.alertOk then unlinkF tp fs else .error fs

/-- transcribe_and_alert of integrated_server.py, tracking the HTTP status
and the temporary files left on disk when the response goes out.  The
decode and minimum-size guards answer 400 before any file is written; the
except-handler of the inner try removes the temp file if it still exists
and re-raises, which the outermost handler turns into a 500. -/
def transcribe_and_alert (inp : PipeInput) : Nat × List String :=
  if !inp.decodeOk then (400, [])
  else if inp.audioLen < 100 then (400, [])
  else
    let tp := tempPath inp.fmt
    match innerFlow inp tp [tp] with
    | .ok fs => (200, fs)
    | .error fs => (500, if fs.contains tp then fs.filter (fun q => q ≠ tp) else fs)

/-- UTF-8 encoding of one code point, the byte production of Python
str.encode. -/
def utf8Enc (c : Nat) : List Nat :=
  if c < 128 then [c]
  else if c < 2048 then [192 + c / 64, 128 + c % 64]
  else if c < 65536 then [224 + c / 4096, 128 + (c / 64) % 64, 128 + c % 64]
  else [240 + c / 262144, 128 + (c / 4096) % 64, 128 + (c / 64) % 64, 128 + c % 64]

/-- UTF-8 bytes of a string. -/
def utf8Bytes (s : String) : List Nat :=
  s.data.foldr (fun c acc => utf8Enc c.toNat ++ acc) []

/-- Truncation to a 32-bit word. -/
def w32 (x : Nat) : Nat := x % 4294967296

/-- Right rotation of a 32-bit word. -/
def rotr (k x : Nat) : Nat := w32 ((x >>> k) ||| (x <<< (32 - k)))

/-- Bitwise complement of a 32-bit word. -/
def not32 (x : Nat) : Nat := x ^^^ 4294967295

/-- The SHA-256 Ch function. -/
def shaCh (e f g : Nat) : Nat := (e &&& f) ^^^ (not32 e &&& g)

/-- The SHA-256 Maj function. -/
def shaMaj (a b c : Nat) : Nat := (a &&& b) ^^^ (a &&& c) ^^^ (b &&& c)

/-- The SHA-256 big sigma functions. -/
def bsig0 (x : Nat) : Nat := rotr 2 x ^^^ rotr 13 x ^^^ rotr 22 x

def bsig1 (x : Nat) : Nat := rotr 6 x ^^^ rotr 11 x ^^^ rotr 25 x

/-- The SHA-256 small sigma functions. -/
def ssig0 (x : Nat) : Nat := rotr 7 x ^^^ rotr 18 x ^^^ (x >>> 3)

def ssig1 (x : Nat) : Nat := rotr 17 x ^^^ rotr 19 x ^^^ (x >>> 10)

/-- The 64 SHA-256 round constants of FIPS 180-4, written in decimal: the
fractional parts of the cube roots of the first 64 primes. -/
def shaK : List Nat :=
  [1116352408, 1899447441, 3049323471, 3921009573, 961987163,
   1508970993, 2453635748, 2870763221, 3624381080, 310598401,
   607225278, 1426881987, 1925078388, 2162078206, 2614888103,
   3248222580, 3835390401, 4022224774, 264347078, 604807628,
   770255983, 1249150122, 1555081692, 1996064986, 2554220882,
   2821834349, 2952996808, 3210313671, 3336571891, 3584528711,
   113926993, 338241895, 666307205, 773529912, 1294757372,
   1396182291, 1695183700, 1986661051, 2177026350, 2456956037,
   2730485921, 2820302411, 3259730800, 3345764771, 3516065817,
   3600352804, 4094571909, 275423344, 430227734, 506948616,
   659060556, 883997877, 958139571, 1322822218, 1537002063,
   1747873779, 1955562222, 2024104815, 2227730452, 2361852424,
   2428436474, 2756734187, 3204031479, 3329325298]

/-- The SHA-256 working state: eight 32-bit words. -/
structure H8 where
  a : Nat
  b : Nat
  c : Nat
  d : Nat
  e : Nat
  f : Nat
  g : Nat
  h : Nat
deriving DecidableEq, Repr

/-- The SHA-256 initial hash value of FIPS 180-4, in decimal. -/
def shaH0 : H8 :=
  ⟨1779033703, 3144134277, 1013904242, 2773480762,
   1359893119, 2600822924, 528734635, 1541459225⟩

/-- SHA-256 message padding: a one bit, zeros to 56 mod 64 bytes, then the
bit length on 8 big-endian bytes. -/
def shaPad (msg : List Nat) : List Nat :=
  let len := msg.length
  let r := (len + 9) % 64
  let zeros := if r = 0 then 0 else 64 - r
  let bitLen := 8 * len
  msg ++ [128] ++ List.replicate zeros 0 ++
    [(bitLen >>> 56) % 256, (bitLen >>> 48) % 256, (bitLen >>> 40) % 256, (bitLen >>> 32) % 256,
     (bitLen >>> 24) % 256, (bitLen >>> 16) % 256, (bitLen >>> 8) % 256, bitLen % 256]

/-- The sixteen big-endian message words of one 64-byte block. -/
def blockWords (block : List Nat) : List Nat :=
  (List.range 16).map (fun i =>
    block.getD (4 * i) 0 * 16777216 + block.getD (4 * i + 1) 0 * 65536 +
    block.getD (4 * i + 2) 0 * 256 + block.getD (4 * i + 3) 0)

/-- Message-schedule extension: append n further words, each combining the
words 2, 7, 15 and 16 places back. -/
def extendW : List Nat → Nat → List Nat
  | ws, 0 => ws
  | ws, n + 1 =>
    extendW
      (ws ++ [w32 (ssig1 (ws.getD (ws.length - 2) 0) + ws.getD (ws.length - 7) 0 +
        ssig0 (ws.getD (ws.length - 15) 0) + ws.getD (ws.length - 16) 0)]) n

/-- One SHA-256 round on the working state, with kw the sum of the round
constant and the schedule word. -/
def shaRound (st : H8) (kw : Nat) : H8 :=
  let t1 := w32 (st.h + bsig1 st.e + shaCh st.e st.f st.g + kw)
  let t2 := w32 (bsig0 st.a + shaMaj st.a st.b st.c)
  ⟨w32 (t1 + t2), st.a, st.b, st.c, w32 (st.d + t1), st.e, st.f, st.g⟩

/-- Compression of one 64-byte block into the running hash value. -/
def processBlock (st : H8) (block : List Nat) : H8 :=
  let ws := extendW (blockWords block) 48
  let kw := List.zipWith (fun k w => w32 (k + w)) shaK ws
  let st' := kw.foldl shaRound st
  ⟨w32 (st.a + st'.a), w32 (st.b + st'.b), w32 (st.c + st'.c), w32 (st.d + st'.d),
   w32 (st.e + st'.e), w32 (st.f + st'.f), w32 (st.g + st'.g), w32 (st.h + st'.h)⟩

/-- Big-endian bytes of one 32-bit word. -/
def wordBytes (w : Nat) : List Nat :=
  [(w >>> 24) % 256, (w >>> 16) % 256, (w >>> 8) % 256, w % 256]

/-- The 32 digest bytes of a final hash state. -/
def digestOfState (st : H8) : List Nat :=
  wordBytes st.a ++ wordBytes st.b ++ wordBytes st.c ++ wordBytes st.d ++
  wordBytes st.e ++ wordBytes st.f ++ wordBytes st.g ++ wordBytes st.h

/-- SHA-256 of a byte sequence (FIPS 180-4), the function hashlib.sha256
computes. -/
def sha256Bytes (msg : List Nat) : List Nat :=
  let padded := shaPad msg
  let blocks := (List.range (padded.length / 64)).map
    (fun i => (padded.drop (64 * i)).take 64)
  digestOfState (blocks.foldl processBlock shaH0)

/-- The pre-hash of auth.py: SHA-256 over the UTF-8 bytes of the password,
producing the 32-byte binary digest handed to bcrypt. -/
def pre_hash_password (p : String) : List Nat :=
  sha256Bytes (utf8Bytes p)

/-- One byte as one character, the record encoding used by the bcrypt
model below; every byte value below 256 is a valid code point. -/
def encodeChars (bs : List Nat) : List Char :=
  bs.map (fun b => Char.ofNat b)

/-- Splits a character list at its first dollar sign: the salt-extraction
step of the bcrypt model.  none when no dollar sign occurs. -/
def splitAtDollar : List Char → Option (List Char × List Char)
  | [] => none
  | c :: cs =>
    if c = '$' then some ([], cs)
    else
      match splitAtDollar cs with
      | some p => some (c :: p.1, p.2)
      | none => none

/-- Model of bcrypt.hashpw with a generated salt: bcrypt truncates its key
to 72 bytes and emits a dollar-prefixed record of version, cost, salt and
key-dependent hash.  The key-dependent part is modelled as a re-readable
record of the truncated key bytes (the EksBlowfish output is treated as
collision-free in the key, which is the standard idealization of the
primitive); the salt is kept separated from it by one more dollar sign. -/
def bcrypt_hashpw (key : List Nat) (salt : String) : String :=
  String.mk (['$', '2', 'b', '$', '1', '2', '$'] ++ salt.data ++ '$' :: encodeChars (key.take 72))

/-- Model of bcrypt.checkpw: reject a stored value that lacks the bcrypt
shape (ValueError, surfaced here as an error), otherwise recompute from
the truncated key and the extracted salt and compare with the stored
record. -/
def bcrypt_checkpw (key : List Nat) (stored : String) : Except Unit Bool :=
  match stored.data with
  | '$' :: '2' :: 'b' :: '$' :: '1' :: '2' :: '$' :: rest =>
    match splitAtDollar rest with
    | some p => .ok (decide (p.2 = encodeChars (key.take 72)))
    | none => .error ()
  | _ => .error ()

/-- get_password_hash of auth.py: pre-hash the password with SHA-256 and
run bcrypt over the 32-byte digest, which always fits under the 72-byte
bcrypt input ceiling. -/
def get_password_hash (salt : String) (p : String) : String :=
  bcrypt_hashpw (pre_hash_password p) salt

/-- verify_password of auth.py: recompute the pre-hash, hand it to
bcrypt.checkpw, and turn any exception (malformed stored hash) into a
false answer instead of raising. -/
def verify_password (p : String) (stored : String) : Bool :=
  match bcrypt_checkpw (pre_hash_password p) stored with
  | .ok b => b
  | .error _ => false

/-- Little-endian base-256 reading of a byte list, used to map digests
into a finite type. -/
def encodeD : List Nat → Nat
  | [] => 0
  | b :: bs => b + 256 * encodeD bs

/-- The password consisting of n letters a: an injective family of
distinct passwords. -/
def repStr (n : Nat) : String :=
  String.mk (List.replicate n 'a')

/-- The pre-hash digest of a password, squeezed into the finite type of
32-byte values. -/
def shaFin (s : String) : Fin (256 ^ 32) :=
  ⟨encodeD (pre_hash_password s) % 256 ^ 32, Nat.mod_lt _ (Nat.pos_pow_of_pos 32 (by decide))⟩

/-- Fixture: an emergency row raised by user 1. -/
def c1row : RawRow := ⟨vInt 1, vInt 1, vReal 40, vReal (-74), vText "2024-01-02 03:04:05"⟩

/-- Fixture: the validated form of c1row. -/
def c1out : EmergencyOut := ⟨1, 1, 40, -74, "2024-01-02 03:04:05"⟩

/-- Fixture: a stored emergency row whose created_at is the empty string. -/
def c2rowBad : RawRow := ⟨vInt 1, vInt 2, vNull, vNull, vText ""⟩

/-- Fixture: a well-formed emergency row by user 2. -/
def c2rowOk : RawRow := ⟨vInt 1, vInt 2, vNull, vNull, vText "2024-01-02 00:00:00"⟩

/-- Fixture: a stored emergency row from user 2 whose created_at is
bytewise below the cursor 2024. -/
def c2rowNum : RawRow := ⟨vInt 1, vInt 2, vNull, vNull, vText "1999-01-01 00:00:00"⟩

/-- Fixture: a stored emergency row whose created_at is a nonzero integer,
on which the created_at fix-up of the database layer raises. -/
def c5rowBad : RawRow := ⟨vInt 1, vInt 2, vNull, vNull, vInt 5⟩

/-- Fixture: 51 emergency rows, all raised by user 2. -/
def c4rows : List RawRow :=
  (List.range 51).map (fun i => ⟨vInt ((i : Int) + 1), vInt 2, vNull, vNull, vText "2024-01-01 00:00:00"⟩)

/-- Fixture: a store with user 1 (no token) and user 2 (token tok2). -/
def stA : DBState :=
  ⟨[⟨1, "a@x.com", "h", some "A", none⟩, ⟨2, "b@x.com", "h", some "B", some "tok2"⟩], [], [], 3, 1⟩

/-- Fixture: a store holding only user 1. -/
def stB : DBState := ⟨[⟨1, "a@x.com", "h", some "A", some "tok1"⟩], [], [], 2, 1⟩

/-- Fixture: a transcription request whose first attempt fails, whose
conversion succeeds and whose retried attempt fails again. -/
def pipeLeak : PipeInput := ⟨true, 200, "webm", false, true, false, true⟩

theorem fixRow_ok_eq {r r' : RawRow} (h : fixRow r = .ok r') : r' = r := by
  unfold fixRow at h
  rcases r with ⟨i, u, la, lo, c⟩
  cases c <;> simp_all <;> split at h <;> simp_all

theorem processRows_ok_eq : ∀ {l l' : List RawRow}, processRows l = .ok l' → l' = l := by
  intro l
  induction l with
  | nil => intro l' h; simpa [processRows] using h.symm
  | cons r rs ih =>
    intro l' h
    unfold processRows at h
    rcases hf : fixRow r with e | r' <;> rw [hf] at h
    · cases h
    · rcases hp : processRows rs with e | rs' <;> rw [hp] at h
      · cases h
      · cases h
        rw [fixRow_ok_eq hf, ih hp]

theorem processRows_ok_self : ∀ {l : List RawRow}, (∀ r ∈ l, fixRow r = .ok r) →
    processRows l = .ok l := by
  intro l
  induction l with
  | nil => intro _; rfl
  | cons r rs ih =>
    intro h
    unfold processRows
    rw [h r (by simp), ih (fun x hx => h x (by simp [hx]))]

theorem foldl_validate (l : List RawRow) (acc : List EmergencyOut) :
    l.foldl (fun acc e =>
      match validateRow e with
      | some v => acc ++ [v]
      | none => acc) acc = acc ++ l.filterMap validateRow := by
  induction l generalizing acc with
  | nil => simp
  | cons r rs ih =>
    rcases hv : validateRow r with _ | v <;>
      simp [List.filterMap_cons, hv, ih, List.append_assoc]

/-- C5: get_recent_emergencies never signals failure: an environmental
fault at the database handle yields the empty list, any exception escaping
the body of the function yields the empty list, and the /emergency/recent
endpoint always answers with the array of validated rows taken from
whatever the database layer returned. -/
theorem C5_never_fails (fault : Bool) (rows : List RawRow) (since : Option String)
    (excl : Option Int) (payload : Option (List (String × Value))) :
    (fault = true → get_recent_emergencies fault rows since excl = []) ∧
    (∀ e, greBody fault rows since excl = .error e →
      get_recent_emergencies fault rows since excl = []) ∧
    (get_recent_emergencies_endpoint fault rows payload since =
      (get_recent_emergencies fault rows since (excludeOf payload)).filterMap validateRow) := by
  refine ⟨?_, ?_, ?_⟩
  · intro hf
    subst hf
    rfl
  · intro e h
    unfold get_recent_emergencies
    rw [h]
  · unfold get_recent_emergencies_endpoint
    rw [foldl_validate]
    simp

/-- C5 witness: a faulted call, a call whose body raises in the row
fix-up loop, and a plain endpoint call, all at concrete inputs. -/
theorem C5_never_fails_witness :
    get_recent_emergencies true [c1row] none none = [] ∧
    get_recent_emergencies false [c5rowBad] none none = [] ∧
    get_recent_emergencies_endpoint false [c1row] none none =
      (get_recent_emergencies false [c1row] none none).filterMap validateRow := by
  refine ⟨(C5_never_fails true [c1row] none none none).1 rfl,
    (C5_never_fails false [c5rowBad] none none none).2.1 () rfl,
    (C5_never_fails false [c1row] none none none).2.2⟩

/-- C10: every element the /emergency/recent endpoint serves has a
positive id and a positive user_id, and the served array is exactly the
database rows that survive the int, int, float, float, str coercions and
the positivity check; the rest are dropped without an error. -/
theorem C10_served_row_shape (fault : Bool) (rows : List RawRow)
    (payload : Option (List (String × Value))) (since : Option String) :
    (∀ e ∈ get_recent_emergencies_endpoint fault rows payload since,
      0 < e.id ∧ 0 < e.user_id) ∧
    get_recent_emergencies_endpoint fault rows payload since =
      (get_recent_emergencies fault rows since (excludeOf payload)).filterMap validateRow := by
  have heq : get_recent_emergencies_endpoint fault rows payload since =
      (get_recent_emergencies fault rows since (excludeOf payload)).filterMap validateRow := by
    unfold get_recent_emergencies_endpoint
    rw [foldl_validate]
    simp
  refine ⟨?_, heq⟩
  intro e he
  rw [heq] at he
  obtain ⟨r, _, hv⟩ := List.mem_filterMap.mp he
  unfold validateRow at hv
  split at hv
  · split at hv
    · rename_i hpos
      cases hv
      exact hpos
    · cases hv
  · cases hv

/-- C10 witness: the single well-formed stored row is served and its ids
are positive. -/
theorem C10_served_row_shape_witness :
    c1out ∈ get_recent_emergencies_endpoint false [c1row] none none ∧
    0 < c1out.id ∧ 0 < c1out.user_id := by
  refine ⟨by decide, (C10_served_row_shape false [c1row] none none).1 c1out (by decide)⟩

/-- C2 counterexample: the cursor Z is non-empty, but its normalization is
the empty string, which the branch test treats as no cursor at all; a
stored row whose created_at equals the normalized cursor (the empty
string) is returned, so the cursor is not an exclusive lower bound for
every non-empty cursor. -/
theorem C2_cursor_counterexample :
    get_recent_emergencies false [c2rowBad] (some "Z") none = [c2rowBad] ∧
    normTs "Z" = "" ∧
    strLtB (normTs "Z").data "".data = false := by
  refine ⟨by decide, by decide, by decide⟩

/-- C2 amended: whenever the normalized cursor is non-empty and is not a
well-formed numeric literal (so the bound parameter keeps the TEXT storage
class under the NUMERIC affinity of the created_at column), every row the
query returns carries a text created_at strictly above the normalized
cursor in the bytewise order.  A cursor that normalizes to a numeric
literal is instead coerced to a number, above which every TEXT cell
sorts, so rows bytewise at or below such a cursor are returned: the
second conjunct shows the cursor 2024 returning a row stamped 1999. -/
theorem C2_exclusive_lower_bound :
    (∀ (fault : Bool) (rows : List RawRow) (since : String) (excl : Option Int) (r : RawRow),
      r ∈ get_recent_emergencies fault rows (some since) excl →
      normTs since ≠ "" →
      sqliteNum? (normTs since).data = none →
      ∃ t, r.created_at = vText t ∧ strLtB (normTs since).data t.data = true) ∧
    (get_recent_emergencies false [c2rowNum] (some "2024") none = [c2rowNum] ∧
      strLtB "1999-01-01 00:00:00".data (normTs "2024").data = true) := by
  constructor
  · intro fault rows since excl r hr hn hnl
    unfold get_recent_emergencies at hr
    rcases hb : greBody fault rows (some since) excl with e | l <;> rw [hb] at hr
    · simp at hr
    · cases fault
      · by_cases hs : since = ""
        · subst hs
          exact absurd rfl hn
        · simp only [greBody, Bool.false_eq_true, if_false, hs, ite_false] at hb
          have hl := processRows_ok_eq hb
          subst hl
          rcases excl with _ | u
          · simp only [selectEmergencies, if_neg hn] at hr
            have hmem := (List.perm_insertionSort rowDescR _).mem_iff.mp hr
            have hgt := (List.mem_filter.mp hmem).2
            rcases hc : r.created_at with _ | n | q | t <;> rw [hc] at hgt <;>
              simp only [textGt, hnl] at hgt <;>
              first
              | cases hgt
              | exact ⟨t, rfl, hgt⟩
          · simp only [selectEmergencies, if_neg hn] at hr
            have hmem := (List.perm_insertionSort rowDescR _).mem_iff.mp hr
            have hpred := (List.mem_filter.mp hmem).2
            have hgt := ((Bool.and_eq_true _ _).mp hpred).1
            rcases hc : r.created_at with _ | n | q | t <;> rw [hc] at hgt <;>
              simp only [textGt, hnl] at hgt <;>
              first
              | cases hgt
              | exact ⟨t, rfl, hgt⟩
      · cases hb
  · exact ⟨by decide, by decide⟩

/-- C2 witness: a cursor with T separator and Z suffix whose normalization
is non-empty and non-numeric, applied to a store with one newer row. -/
theorem C2_exclusive_lower_bound_witness :
    c2rowOk ∈ get_recent_emergencies false [c2rowOk] (some "2024-01-01T00:00:00Z") none ∧
    normTs "2024-01-01T00:00:00Z" ≠ "" ∧
    sqliteNum? (normTs "2024-01-01T00:00:00Z").data = none ∧
    ∃ t, c2rowOk.created_at = vText t ∧
      strLtB (normTs "2024-01-01T00:00:00Z").data t.data = true := by
  refine ⟨by decide, by decide, by decide, ?_⟩
  exact C2_exclusive_lower_bound.1 false [c2rowOk] "2024-01-01T00:00:00Z" none c2rowOk
    (by decide) (by decide) (by decide)

/-- C4 counterexample: with no cursor but an exclusion id, the query runs
the branch without LIMIT, and a store of 51 foreign rows comes back whole,
above the claimed cap of 50. -/
theorem C4_counterexample :
    (get_recent_emergencies false c4rows none (some 1)).length = 51 := by
  decide

/-- C4 amended: the 50-row cap applies exactly to the branch with neither
cursor nor exclusion id; when an exclusion id is supplied without a
cursor, no cap is applied and the result can be made arbitrarily long. -/
theorem C4_bounded_only_without_exclusion :
    (∀ fault rows, (get_recent_emergencies fault rows none none).length ≤ 50) ∧
    (∀ n : Nat, ∃ rows, (get_recent_emergencies false rows none (some 1)).length = n) := by
  constructor
  · intro fault rows
    unfold get_recent_emergencies
    rcases hb : greBody fault rows none none with e | l
    · simp
    · show l.length ≤ 50
      cases fault
      · simp only [greBody, Bool.false_eq_true, if_false] at hb
        have hl := processRows_ok_eq hb
        subst hl
        simp only [selectEmergencies]
        rw [List.length_take]
        exact min_le_left _ _
      · cases hb
  · intro n
    refine ⟨List.replicate n c2rowOk, ?_⟩
    have hfil : (List.replicate n c2rowOk).filter (fun r => sqlNeInt r.user_id 1) =
        List.replicate n c2rowOk :=
      List.filter_eq_self.mpr (fun a ha => by rw [List.eq_of_mem_replicate ha]; rfl)
    have hperm := List.perm_insertionSort rowDescR (List.replicate n c2rowOk)
    have hok : processRows ((List.replicate n c2rowOk).insertionSort rowDescR) =
        .ok ((List.replicate n c2rowOk).insertionSort rowDescR) :=
      processRows_ok_self (fun r hrm => by
        rw [List.eq_of_mem_replicate (hperm.mem_iff.mp hrm)]
        rfl)
    unfold get_recent_emergencies greBody
    simp only [Bool.false_eq_true, if_false, selectEmergencies, hfil]
    rw [hok]
    show ((List.replicate n c2rowOk).insertionSort rowDescR).length = n
    rw [hperm.length_eq, List.length_replicate]

/-- C1: a valid bearer token carries its subject under the key sub (that
is how create_access_token builds every token), but the endpoint looks up
the key user_id in the decoded payload, finds nothing, and so never
excludes the caller: polling with the token of user 1 returns the single
stored event raised by user 1 itself. -/
theorem C1_own_event_not_excluded :
    get_recent_emergencies_endpoint false [c1row]
      (some (create_access_token 1 1767225600)) none = [c1out] ∧
    c1out.user_id = 1 ∧
    excludeOf (some (create_access_token 1 1767225600)) = none := by
  refine ⟨by decide, rfl, rfl⟩

/-- C3 counterexample: with the emergency insert failing, the fan-out
still dispatches (one recipient is notified) and still answers sent, with
the sentinel emergency id -1 instead of a positive identifier of a
recorded event. -/
theorem C3_counterexample :
    (notify_nearby false true "2024-01-05 00:00:00" (fun _ => true) stA 1 40 (-74)).2 =
      ⟨"sent", 1, -1⟩ := by
  decide

/-- C3 amended: persistence failures do not abort the fan-out.  The upsert
result is ignored; a failed emergency insert leaves the event log
untouched and sends the sentinel -1 out in an otherwise normal sent
response, with notifications still dispatched to every foreign token; a
successful insert returns the next autoincrement id, positive whenever the
counter is. -/
theorem C3_no_abort_semantics (fLoc fEmerg : Bool) (now : String) (sendOk : String → Bool)
    (st : DBState) (uid : Int) (lat lon : Rat) :
    ((notify_nearby fLoc fEmerg now sendOk st uid lat lon).2.status = "sent") ∧
    (fEmerg = true →
      (notify_nearby fLoc fEmerg now sendOk st uid lat lon).2.emergency_id = -1 ∧
      (notify_nearby fLoc fEmerg now sendOk st uid lat lon).1.emergencies = st.emergencies) ∧
    (fEmerg = false →
      (notify_nearby fLoc fEmerg now sendOk st uid lat lon).2.emergency_id =
        st.nextEmergencyId ∧
      (0 < st.nextEmergencyId →
        0 < (notify_nearby fLoc fEmerg now sendOk st uid lat lon).2.emergency_id)) ∧
    ((notify_nearby fLoc fEmerg now sendOk st uid lat lon).2.recipients =
      ((get_user_push_tokens_except (notify_nearby fLoc fEmerg now sendOk st uid lat lon).1
        uid).filter sendOk).length) := by
  cases fEmerg <;> cases fLoc <;>
    simp [notify_nearby, create_emergency, upsert_location, get_user_push_tokens_except]

/-- C3 witness: the failing insert keeps the log empty and reports -1
while a recipient is notified; the succeeding insert reports the positive
next id. -/
theorem C3_no_abort_semantics_witness :
    (notify_nearby false true "2024-01-05 00:00:00" (fun _ => true) stA 1 40 (-74)).2.emergency_id
      = -1 ∧
    (notify_nearby false false "2024-01-05 00:00:00" (fun _ => true) stA 1 40
      (-74)).2.emergency_id = stA.nextEmergencyId ∧
    0 < (notify_nearby false false "2024-01-05 00:00:00" (fun _ => true) stA 1 40
      (-74)).2.emergency_id := by
  refine ⟨((C3_no_abort_semantics false true "2024-01-05 00:00:00" (fun _ => true) stA 1 40
      (-74)).2.1 rfl).1, ?_, ?_⟩
  · exact ((C3_no_abort_semantics false false "2024-01-05 00:00:00" (fun _ => true) stA 1 40
      (-74)).2.2.1 rfl).1
  · exact ((C3_no_abort_semantics false false "2024-01-05 00:00:00" (fun _ => true) stA 1 40
      (-74)).2.2.1 rfl).2 (by decide)

/-- C7: the POST /location/update handler reads request.user_id although
the request model declares only latitude and longitude (the model comment
moved the id into the JWT, but the handler resolves no JWT), so every
request raises AttributeError and is answered 500, never with the success
object. -/
theorem C7_update_location_always_raises (fault : Bool) (now : String)
    (req : LocationUpdateRequest) (st : DBState) :
    update_location fault now req st = (st, .httpError 500 "AttributeError: user_id") := by
  simp [update_location, LocationUpdateRequest.getattr]

/-- C8 counterexample: registering a push token for the absent user id 5
does not create a users row; the call fails and leaves the store exactly
as it was. -/
theorem C8_counterexample :
    register_push_token false stB 5 "tokX" none = (stB, false) ∧
    stB.users.any (fun u => u.id = 5) = false := by
  refine ⟨by decide, by decide⟩

/-- C8 amended: register_push_token never creates a user row: a call that
fails (fault, or no row with the given id) leaves the store unchanged, the
stored user ids are preserved exactly by every call, and the call succeeds
precisely when a row with the id already exists; user rows are only ever
created by create_user, which preserves every existing row. -/
theorem C8_push_token_requires_user (fault : Bool) (st : DBState) (uid : Int)
    (tok : String) (name : Option String) :
    ((register_push_token fault st uid tok name).2 = false →
      (register_push_token fault st uid tok name).1 = st) ∧
    ((register_push_token fault st uid tok name).1.users.map (fun u => u.id) =
      st.users.map (fun u => u.id)) ∧
    ((register_push_token fault st uid tok name).2 = true ↔
      fault = false ∧ st.users.any (fun u => u.id = uid) = true) ∧
    (∀ fault2 email ph nm, ∀ u ∈ st.users, u ∈ (create_user fault2 st email ph nm).1.users) := by
  refine ⟨?_, ?_, ?_, ?_⟩
  · intro hfalse
    cases fault
    · unfold register_push_token at hfalse ⊢
      by_cases hex : st.users.any (fun u => u.id = uid) = true
      · simp [hex] at hfalse
      · simp [hex]
    · rfl
  · cases fault
    · unfold register_push_token
      by_cases hex : st.users.any (fun u => u.id = uid) = true
      · simp only [Bool.false_eq_true, if_false, hex, if_true]
        rw [List.map_map]
        refine List.map_congr_left (fun u _ => ?_)
        simp only [Function.comp]
        split <;> rfl
      · simp [hex]
    · rfl
  · cases fault
    · unfold register_push_token
      by_cases hex : st.users.any (fun u => u.id = uid) = true
      · simp [hex]
      · simp [hex]
    · simp [register_push_token]
  · intro fault2 email ph nm u hu
    cases fault2
    · unfold create_user
      by_cases hdup : st.users.any (fun v => v.email = email) = true
      · simpa [hdup] using hu
      · simp only [Bool.false_eq_true, if_false, hdup, if_true]
        exact List.mem_append_left _ hu
    · exact hu

/-- C8 witness: updating the token of the existing user 1 succeeds and
keeps the id list; the call for the absent id 5 returns the store
unchanged. -/
theorem C8_push_token_requires_user_witness :
    ((register_push_token false stB 1 "tokY" (some "New")).2 = true ↔
      false = false ∧ stB.users.any (fun u => u.id = 1) = true) ∧
    (register_push_token false stB 5 "tokX" none).1 = stB := by
  refine ⟨(C8_push_token_requires_user false stB 1 "tokY" (some "New")).2.2.1,
    (C8_push_token_requires_user false stB 5 "tokX" none).1 (by decide)⟩

/-- C9 counterexample: first transcription fails, the conversion succeeds,
the retried transcription fails; the handler removes the original temp
file but the converted wav survives the 500 response. -/
theorem C9_counterexample :
    transcribe_and_alert pipeLeak = (500, ["tmp.wav"]) := by
  decide

/-- C9 amended: the original temporary audio file is gone on every exit
path, and the only possible leftover is the converted wav file, which
survives exactly the webm request whose first transcription fails, whose
conversion succeeds and whose retried transcription fails again. -/
theorem C9_temp_cleanup (inp : PipeInput) :
    ((transcribe_and_alert inp).2.contains (tempPath inp.fmt)) = false ∧
    ((transcribe_and_alert inp).2 = [] ∨
      ((transcribe_and_alert inp).2 = [wavPath inp.fmt] ∧ inp.fmt = "webm" ∧
        inp.firstOk = false ∧ inp.convertOk = true ∧ inp.retryOk = false)) := by
  rcases inp with ⟨dec, len, fmt, f1, cv, rt, al⟩
  by_cases hf : fmt = "webm" <;> by_cases hl : len < 100 <;>
    cases dec <;> cases f1 <;> cases cv <;> cases rt <;> cases al <;>
      simp [transcribe_and_alert, innerFlow, unlinkF, createFile, tempPath, wavPath, fileExt,
        hf, hl]

set_option maxRecDepth 4096 in
theorem char_ofNat_toNat : ∀ b < 256, (Char.ofNat b).toNat = b := by
  decide

theorem encodeChars_inj : ∀ l1 l2 : List Nat, (∀ x ∈ l1, x < 256) → (∀ x ∈ l2, x < 256) →
    encodeChars l1 = encodeChars l2 → l1 = l2 := by
  intro l1
  induction l1 with
  | nil =>
    intro l2 _ _ h
    cases l2 with
    | nil => rfl
    | cons b bs => simp [encodeChars] at h
  | cons a as ih =>
    intro l2 hb1 hb2 h
    cases l2 with
    | nil => simp [encodeChars] at h
    | cons b bs =>
      simp only [encodeChars, List.map_cons, List.cons.injEq] at h
      have ha : a < 256 := hb1 a (by simp)
      have hbb : b < 256 := hb2 b (by simp)
      have hab : a = b := by
        have hc := congrArg Char.toNat h.1
        rwa [char_ofNat_toNat a ha, char_ofNat_toNat b hbb] at hc
      rw [hab, ih bs (fun x hx => hb1 x (by simp [hx])) (fun x hx => hb2 x (by simp [hx])) h.2]

theorem splitAtDollar_append (a b : List Char) (ha : '$' ∉ a) :
    splitAtDollar (a ++ '$' :: b) = some (a, b) := by
  induction a with
  | nil => simp [splitAtDollar]
  | cons c cs ih =>
    have hc : ¬(c = '$') := fun h => ha (by simp [h])
    simp [splitAtDollar, hc, ih (fun h => ha (List.mem_cons_of_mem _ h))]

theorem bcrypt_roundtrip (key : List Nat) (salt : String) (hs : '$' ∉ salt.data) :
    bcrypt_checkpw key (bcrypt_hashpw key salt) = .ok true := by
  have h1 : (bcrypt_hashpw key salt).data =
      '$' :: '2' :: 'b' :: '$' :: '1' :: '2' :: '$' ::
        (salt.data ++ '$' :: encodeChars (key.take 72)) := rfl
  unfold bcrypt_checkpw
  rw [h1]
  simp [splitAtDollar_append _ _ hs]

theorem bcrypt_mismatch (k1 k2 : List Nat) (salt : String) (hs : '$' ∉ salt.data)
    (hl1 : k1.length ≤ 72) (hl2 : k2.length ≤ 72)
    (hb1 : ∀ x ∈ k1, x < 256) (hb2 : ∀ x ∈ k2, x < 256) (hne : k1 ≠ k2) :
    bcrypt_checkpw k1 (bcrypt_hashpw k2 salt) = .ok false := by
  have h1 : (bcrypt_hashpw k2 salt).data =
      '$' :: '2' :: 'b' :: '$' :: '1' :: '2' :: '$' ::
        (salt.data ++ '$' :: encodeChars (k2.take 72)) := rfl
  unfold bcrypt_checkpw
  rw [h1]
  simp only [splitAtDollar_append _ _ hs]
  rw [List.take_of_length_le hl1, List.take_of_length_le hl2]
  have : ¬(encodeChars k2 = encodeChars k1) := fun h => hne (encodeChars_inj k2 k1 hb2 hb1 h).symm
  simp [this]

theorem bcrypt_malformed (key : List Nat) (s : String) (h : s.data.contains '$' = false) :
    bcrypt_checkpw key s = .error () := by
  unfold bcrypt_checkpw
  split
  · rename_i heq
    rw [heq] at h
    simp [List.contains_cons] at h
  · rfl

theorem wordBytes_lt (w : Nat) : ∀ x ∈ wordBytes w, x < 256 := by
  intro x hx
  simp [wordBytes] at hx
  rcases hx with h | h | h | h <;> subst h <;> exact Nat.mod_lt _ (by decide)

theorem sha256Bytes_length (m : List Nat) : (sha256Bytes m).length = 32 := rfl

theorem sha256Bytes_lt (m : List Nat) : ∀ x ∈ sha256Bytes m, x < 256 := by
  intro x hx
  unfold sha256Bytes digestOfState at hx
  simp only [List.mem_append] at hx
  rcases hx with ((((((h | h) | h) | h) | h) | h) | h) | h <;> exact wordBytes_lt _ _ h

theorem pre_hash_len (p : String) : (pre_hash_password p).length = 32 :=
  sha256Bytes_length _

theorem pre_hash_lt (p : String) : ∀ x ∈ pre_hash_password p, x < 256 :=
  sha256Bytes_lt _

theorem encodeD_lt : ∀ l : List Nat, (∀ x ∈ l, x < 256) → encodeD l < 256 ^ l.length := by
  intro l
  induction l with
  | nil => intro _; simp [encodeD]
  | cons b bs ih =>
    intro hb
    have h1 : b < 256 := hb b (by simp)
    have h2 := ih (fun x hx => hb x (by simp [hx]))
    simp only [encodeD, List.length_cons, pow_succ]
    calc b + 256 * encodeD bs < 256 * (encodeD bs + 1) := by omega
      _ ≤ 256 * 256 ^ bs.length := Nat.mul_le_mul_left _ (by omega)
      _ = 256 ^ bs.length * 256 := Nat.mul_comm _ _

theorem encodeD_inj : ∀ l1 l2 : List Nat, l1.length = l2.length → (∀ x ∈ l1, x < 256) →
    (∀ x ∈ l2, x < 256) → encodeD l1 = encodeD l2 → l1 = l2 := by
  intro l1
  induction l1 with
  | nil =>
    intro l2 hlen _ _ _
    cases l2 with
    | nil => rfl
    | cons b bs => simp at hlen
  | cons a as ih =>
    intro l2 hlen hb1 hb2 henc
    cases l2 with
    | nil => simp at hlen
    | cons b bs =>
      simp only [encodeD] at henc
      have ha : a < 256 := hb1 a (by simp)
      have hbb : b < 256 := hb2 b (by simp)
      have hab : a = b ∧ encodeD as = encodeD bs := by omega
      rw [hab.1, ih bs (by simpa using hlen) (fun x hx => hb1 x (by simp [hx]))
        (fun x hx => hb2 x (by simp [hx])) hab.2]

theorem repStr_inj {m n : Nat} (h : repStr m = repStr n) : m = n := by
  have hc := congrArg (fun s : String => s.data.length) h
  simpa [repStr] using hc

theorem pre_hash_collision :
    ∃ p1 p2 : String, p1 ≠ p2 ∧ pre_hash_password p1 = pre_hash_password p2 := by
  obtain ⟨x, y, hxy, hfe⟩ := Finite.exists_ne_map_eq_of_infinite (fun n : ℕ => shaFin (repStr n))
  refine ⟨repStr x, repStr y, fun h => hxy (repStr_inj h), ?_⟩
  have hv := congrArg Fin.val hfe
  simp only [shaFin] at hv
  have hlt1 : encodeD (pre_hash_password (repStr x)) < 256 ^ 32 := by
    have h := encodeD_lt _ (pre_hash_lt (repStr x))
    rwa [pre_hash_len] at h
  have hlt2 : encodeD (pre_hash_password (repStr y)) < 256 ^ 32 := by
    have h := encodeD_lt _ (pre_hash_lt (repStr y))
    rwa [pre_hash_len] at h
  rw [Nat.mod_eq_of_lt hlt1, Nat.mod_eq_of_lt hlt2] at hv
  exact encodeD_inj _ _ (by rw [pre_hash_len, pre_hash_len]) (pre_hash_lt _) (pre_hash_lt _) hv

/-- C6 counterexample: the pre-hash maps infinitely many passwords into
the finite set of 32-byte digests, so two distinct passwords with the same
digest exist, and for them verification succeeds against the stored hash
of the other password; the universally quantified mismatch half of the
claim is therefore false (the spec itself only promises it with
overwhelming probability). -/
theorem C6_counterexample :
    ¬ (∀ p1 p2 salt : String, p1 ≠ p2 → '$' ∉ salt.data →
        verify_password p1 (get_password_hash salt p2) = false) := by
  intro h
  obtain ⟨p1, p2, hne, hdig⟩ := pre_hash_collision
  have hr := bcrypt_roundtrip (pre_hash_password p2) "s0" (by decide)
  have hv : verify_password p1 (get_password_hash "s0" p2) = true := by
    unfold verify_password get_password_hash
    rw [hdig, hr]
  have hfalse := h p1 p2 "s0" hne (by decide)
  rw [hfalse] at hv
  cases hv

/-- C6 amended: for every password the round trip verifies, including
passwords far beyond the 72-byte bcrypt ceiling (the pre-hash always hands
bcrypt 32 bytes); two passwords whose SHA-256 pre-hashes differ never
cross-verify; and a malformed stored hash makes verification answer false
instead of raising. -/
theorem C6_password_hashing (p1 p2 salt bad : String) (hs : '$' ∉ salt.data) :
    verify_password p1 (get_password_hash salt p1) = true ∧
    (pre_hash_password p1 ≠ pre_hash_password p2 →
      verify_password p1 (get_password_hash salt p2) = false) ∧
    (bad.data.contains '$' = false → verify_password p1 bad = false) := by
  refine ⟨?_, ?_, ?_⟩
  · unfold verify_password get_password_hash
    rw [bcrypt_roundtrip _ _ hs]
  · intro hne
    unfold verify_password get_password_hash
    rw [bcrypt_mismatch (pre_hash_password p1) (pre_hash_password p2) salt hs
      (by rw [pre_hash_len]; omega) (by rw [pre_hash_len]; omega)
      (pre_hash_lt p1) (pre_hash_lt p2) hne]
  · intro hbad
    unfold verify_password
    rw [bcrypt_malformed _ _ hbad]

/-- C6 witness: concrete round trips (one password of 100 bytes, well
past the bcrypt ceiling), a concrete digest mismatch, and a concrete
malformed stored hash. -/
theorem C6_password_hashing_witness :
    ('$' ∉ "bcsalt".data) ∧
    pre_hash_password "hello" ≠ pre_hash_password "world" ∧
    ("garbage".data.contains '$' = false) ∧
    verify_password "hello" (get_password_hash "bcsalt" "hello") = true ∧
    verify_password (repStr 100) (get_password_hash "bcsalt" (repStr 100)) = true ∧
    verify_password "hello" (get_password_hash "bcsalt" "world") = false ∧
    verify_password "hello" "garbage" = false := by
  refine ⟨by decide, by decide, by decide,
    (C6_password_hashing "hello" "world" "bcsalt" "garbage" (by decide)).1,
    (C6_password_hashing (repStr 100) "world" "bcsalt" "garbage" (by decide)).1,
    (C6_password_hashing "hello" "world" "bcsalt" "garbage" (by decide)).2.1 (by decide),
    (C6_password_hashing "hello" "world" "bcsalt" "garbage" (by decide)).2.2 (by decide)⟩
